import Mathlib

/-
Shallow embedding of `multiblockShared.cpp` (tiled CUDA matrix multiply).

Modelling conventions:
* `float` values are modelled by exact rationals: every property at issue
  concerns indexing, control flow and arithmetic on the constant fills
  (1.0, 0.01) or on 0/1 entries, all of which float arithmetic performs
  exactly at the sizes involved; rounding behaviour is not part of any claim
  settled through these definitions.
* Device/host buffers are flat row-major `List ℚ`; an access beyond the
  allocated extent (undefined behaviour in the source) is modelled by
  `List.get?` returning `none`, which propagates through the computation.
* The per-thread kernel body is embedded with the shared-memory staging
  resolved to its global sources, which the two `__syncthreads()` barriers
  make well defined: in iteration `m`, thread `(tx, ty)` of block `(bx, by)`
  stores
    `Ads[tx][ty] := A[(by*BS + ty)*wA + m*BS + tx]`
    `Bds[tx][ty] := B[(m*BS + ty)*wA + bx*BS + tx]`
  so after the first barrier `Ads[i][j] = A[(by*BS + j)*wA + m*BS + i]` and
  `Bds[i][j] = B[(m*BS + j)*wA + bx*BS + i]` (each slot has exactly one
  writer).  The accumulation `C_local += Ads[tx][k] * Bds[k][ty]` therefore
  reads `A[(by*BS + k)*wA + m*BS + tx]` and `B[(m*BS + ty)*wA + bx*BS + k]`.
* `blockDim.x = blockDim.y = BS` as in the launch configuration
  `dim3 threads(block_size, block_size)` with the matching template argument.
-/

/-- One CUDA thread: block index `(bx, byy)` and in-block index `(tx, ty)`
(`byy` stands for the source's `by`, a Lean keyword). -/
structure Thread where
  bx : ℕ
  byy : ℕ
  tx : ℕ
  ty : ℕ
deriving DecidableEq

/-- Flat index of the A element feeding `Ads[tx][k]` in tile step `m`:
`A[(by*BLOCK_SIZE + k) * wA + (m*BLOCK_SIZE + tx)]`. -/
def aReadIdx (BS wA : ℕ) (t : Thread) (m k : ℕ) : ℕ :=
  (t.byy * BS + k) * wA + (m * BS + t.tx)

/-- Flat index of the B element feeding `Bds[k][ty]` in tile step `m`:
`B[(m*BLOCK_SIZE + ty) * wA + (bx*BLOCK_SIZE + k)]`.  Note the stride is
`wA` (the source indexes B with `wA`; its `wB` parameter is unused). -/
def bReadIdx (BS wA : ℕ) (t : Thread) (m k : ℕ) : ℕ :=
  (m * BS + t.ty) * wA + (t.bx * BS + k)

/-- Flat index of the C element written by thread `t`:
`C[row*wA + col]` with `row = by*BLOCK_SIZE + ty`, `col = bx*BLOCK_SIZE + tx`. -/
def cWriteIdx (BS wA : ℕ) (t : Thread) : ℕ :=
  (t.byy * BS + t.ty) * wA + (t.bx * BS + t.tx)

/-- The product `Ads[tx][k] * Bds[k][ty]` accumulated by thread `t` in tile
step `m` at inner index `k`, with shared memory resolved to its global
sources; `none` when either read is outside the buffer. -/
def prodAt (BS wA : ℕ) (A B : List ℚ) (t : Thread) (m k : ℕ) : Option ℚ :=
  (A.get? (aReadIdx BS wA t m k)).bind fun a =>
    (B.get? (bReadIdx BS wA t m k)).map fun b => a * b

/-- The inner loop `for (k = 0; k < BLOCK_SIZE; ++k) C_local += Ads[tx][k] * Bds[k][ty]`. -/
def tileAccum (BS wA : ℕ) (A B : List ℚ) (t : Thread) (m : ℕ) (acc : Option ℚ) : Option ℚ :=
  (List.range BS).foldl
    (fun a k => a.bind fun x => (prodAt BS wA A B t m k).map fun p => x + p) acc

/-- The value `C_local` held by thread `t` after the outer loop
`for (m = 0; m < wA / BLOCK_SIZE; ++m)`, starting from `C_local = 0`. -/
def threadVal (BS wA : ℕ) (A B : List ℚ) (t : Thread) : Option ℚ :=
  (List.range (wA / BS)).foldl (fun acc m => tileAccum BS wA A B t m acc) (some 0)

/-- All threads of the launch grid
`dim3 grid(dimsB.x / block_size, dimsA.y / block_size)` with
`block_size × block_size` threads per block, enumerated block-major. -/
def allThreads (BS wB hA : ℕ) : List Thread :=
  (List.range (wB / BS)).flatMap fun bx =>
    (List.range (hA / BS)).flatMap fun byy =>
      (List.range BS).flatMap fun tx =>
        (List.range BS).map fun ty => ⟨bx, byy, tx, ty⟩

/-- The content of device buffer C at flat index `i` after the kernel ran with
write order `sched` (each thread performs `C[row*wA + col] = C_local`; the
last write in schedule order is the one that remains).  `none` means the cell
was never written (it keeps its uninitialized `cudaMalloc` content); `some
none` means it was written by a thread whose own reads went out of bounds. -/
def MatrixMulCUDA (BS wA : ℕ) (A B : List ℚ) (sched : List Thread) (i : ℕ) :
    Option (Option ℚ) :=
  ((sched.filter fun t => cWriteIdx BS wA t == i).map fun t =>
    threadVal BS wA A B t).getLast?

/-- `ConstantInit(data, size, val)`: a buffer of `size` copies of `val`. -/
def ConstantInit (size : ℕ) (val : ℚ) : List ℚ :=
  List.replicate size val

/-- The dot product the specification ascribes to output position
`(row, col)`: `Σ_{k=0}^{wA-1} A[row][k] * B[k][col]`, with A of width `wA`
and B of width `wB`, both row-major.  This definition follows the
specification's words, for comparison with the kernel embedding. -/
def dotProductSpec (wA wB : ℕ) (A B : List ℚ) (row col : ℕ) : Option ℚ :=
  (List.range wA).foldl
    (fun acc k => acc.bind fun s =>
      (A.get? (row * wA + k)).bind fun a =>
        (B.get? (k * wB + col)).map fun b => s + a * b) (some 0)

/-- A concrete 16×16 A: all zero except `A[1][0] = 1` (flat index 16). -/
def A_c1 : List ℚ :=
  (List.range 256).map fun i => if i = 16 then 1 else 0

/-- A concrete 16×16 B: all zero except `B[0][1] = 1` (flat index 1). -/
def B_c1 : List ℚ :=
  (List.range 256).map fun i => if i = 1 then 1 else 0

/-- Constant-filled host A for the wA = 32, hA = 16 configuration:
`ConstantInit(h_A, 32*16, 1.0f)`. -/
def A_const : List ℚ := ConstantInit (32 * 16) 1

/-- Constant-filled host B for the wB = 16, hB = 32 configuration:
`ConstantInit(h_B, 16*32, 0.01f)`. -/
def B_const : List ℚ := ConstantInit (16 * 32) (1 / 100)

/-- A for the write-race configuration (wA = 16, hA = 32): all zero except
flat index 0, i.e. `A[0][0] = 1`. -/
def A_race : List ℚ :=
  (List.range 512).map fun i => if i = 0 then 1 else 0

/-- B for the write-race configuration (wB = 48, hB = 16): all zero except
flat index 256. -/
def B_race : List ℚ :=
  (List.range 768).map fun i => if i = 256 then 1 else 0

/-- `const float valB = 0.01f;` (exact value of the constant fill). -/
def valB : ℚ := 1 / 100

/-- `double eps = 1.e-6;` the validation tolerance. -/
def eps : ℚ := 1 / 1000000

/-- The validation formula of the source:
`rel_err = fabs(h_C[i] - dimsA.x*valB) / fabs(h_C[i]) / dimsA.x`.
Division is the total division of `ℚ` (`x / 0 = 0`), applied identically to
the code's formula and to the claim's formula, which are syntactically the
same expression. -/
def rel_err (c refv dot_length : ℚ) : ℚ :=
  |c - refv| / |c| / dot_length

/-- Whether element value `c` is flagged: `rel_err > eps` with
reference `dimsA.x * valB` and `dot_length = dimsA.x` (`wAq` is `dimsA.x`
as a rational). -/
def failsTol (wAq c : ℚ) : Bool :=
  decide (eps < rel_err c (wAq * valB) wAq)

/-- One step of the validation loop: a flagged element appends an error
report `(index, computed value, reference)` and clears `correct`; otherwise
the state is unchanged. -/
def valStep (wAq : ℚ) (st : List (ℕ × ℚ × ℚ) × Bool) (p : ℕ × ℚ) :
    List (ℕ × ℚ × ℚ) × Bool :=
  if failsTol wAq p.2 then (st.1 ++ [(p.1, p.2, wAq * valB)], false) else st

/-- The whole validation loop over `h_C` (every index from 0 to
`dimsC.x*dimsC.y - 1`, in order), starting from `correct = true`:
returns the list of error reports and the final `correct` flag. -/
def validate (wAq : ℚ) (hC : List ℚ) : List (ℕ × ℚ × ℚ) × Bool :=
  hC.enum.foldl (valStep wAq) ([], true)

/-- The return value of `MatrixMultiply`:
`EXIT_SUCCESS` (0) when `correct`, else `EXIT_FAILURE` (1). -/
def MatrixMultiply_result (wAq : ℚ) (hC : List ℚ) : ℕ :=
  if (validate wAq hC).2 then 0 else 1

/-- The process exit code of `main` on the non-allocation-failure paths:
`exit(EXIT_FAILURE)` when `dimsA.x != dimsB.y`, otherwise
`exit(matrix_result)` with the value returned by `MatrixMultiply`. -/
def mainExitCode (wA hB : ℕ) (wAq : ℚ) (hC : List ℚ) : ℕ :=
  if wA ≠ hB then 1 else MatrixMultiply_result wAq hC

/-- `int block_size = 32;` in `main` (never overridden). -/
def main_block_size : ℕ := 32

/-- The template argument the driver launches with:
`if (block_size == 16) MatrixMulCUDA<16><<<...>>> else MatrixMulCUDA<32><<<...>>>`. -/
def launchedBlockSize (block_size : ℕ) : ℕ :=
  if block_size = 16 then 16 else 32

/-- The three matrices, to tag buffer events. -/
inductive Buf where
  | A
  | B
  | C
deriving DecidableEq

/-- Observable events of a run, in program order. -/
inductive Event where
  | startPrint
  | mismatchPrint
  | dimsPrint
  | hostAlloc : Buf → Bool → Event
  | initHost : Buf → Event
  | checkFail
  | devAlloc : Buf → Event
  | memcpyHtoD : Buf → Event
  | kernelLaunch : ℕ → Event
  | memcpyDtoH : Buf → Event
  | errPrint : ℕ → Event
  | freeHost : Buf → Event
  | freeDev : Buf → Event
  | ret : ℕ → Event
  | exitE : ℕ → Event
deriving DecidableEq

/-- The event trace of `MatrixMultiply(argc, argv, block_size, dimsA, dimsB)`.
`okA`, `okB`, `okC` are the outcomes of the three `malloc` calls; `hC` is the
list of values read back into `h_C` and `wAq` is `dimsA.x`.  Faithful to the
source order: `malloc(A)`, `malloc(B)`, `ConstantInit(A)`, `ConstantInit(B)`,
`malloc(C)`, then the `h_C == NULL` check (the only allocation check), device
allocations, both transfers, the warm-up launch, 300 timed launches, the
read-back, the validation loop, the frees and the `return`. -/
def mmTrace (block_size : ℕ) (okA okB okC : Bool) (wAq : ℚ) (hC : List ℚ) :
    List Event :=
  [.hostAlloc .A okA, .hostAlloc .B okB, .initHost .A, .initHost .B,
   .hostAlloc .C okC] ++
  if okC then
    [.devAlloc .A, .devAlloc .B, .devAlloc .C,
     .memcpyHtoD .A, .memcpyHtoD .B,
     .kernelLaunch (launchedBlockSize block_size)] ++
    List.replicate 300 (Event.kernelLaunch (launchedBlockSize block_size)) ++
    [.memcpyDtoH .C] ++
    ((hC.enum.filter fun p => failsTol wAq p.2).map fun p => Event.errPrint p.1) ++
    [.freeHost .A, .freeHost .B, .freeHost .C,
     .freeDev .A, .freeDev .B, .freeDev .C,
     .ret (MatrixMultiply_result wAq hC)]
  else
    [.checkFail, .exitE 1]

/-- The event trace of `main` (help path and device query elided as external
collaborators): the start banner, then the `dimsA.x != dimsB.y` check with
its error print and `exit(EXIT_FAILURE)`, otherwise the dimensions print,
the `MatrixMultiply` call and `exit(matrix_result)` — unless the process
already exited inside `MatrixMultiply` on its early-failure path. -/
def mainTrace (wA hA wB hB block_size : ℕ) (okA okB okC : Bool)
    (wAq : ℚ) (hC : List ℚ) : List Event :=
  [.startPrint] ++
  if wA ≠ hB then
    [.mismatchPrint, .exitE 1]
  else
    [.dimsPrint] ++ mmTrace block_size okA okB okC wAq hC ++
    if okC then [.exitE (MatrixMultiply_result wAq hC)] else []

set_option maxRecDepth 4000

/-- `List.range 16` as a literal, for unfolding the inner loop. -/
lemma range_sixteen :
    List.range 16 = [0, 1, 2, 3, 4, 5, 6, 7, 8, 9, 10, 11, 12, 13, 14, 15] := rfl

/-- Claim C1: the kernel is claimed to store at output position (row, col)
the dot product `Σ_k A[row][k] * B[k][col]`.  It does not: with
`BLOCK_SIZE = 16`, 16×16 matrices `A = e_{1,0}` and `B = e_{0,1}`, the thread
owning position (0, 0) stores 1 while the specified dot product there is 0
(the accumulation `Ads[tx][k] * Bds[k][ty]` uses transposed shared-tile
indices). -/
theorem kernel_not_dot_product :
    cWriteIdx 16 16 ⟨0, 0, 0, 0⟩ = 0 ∧
    threadVal 16 16 A_c1 B_c1 ⟨0, 0, 0, 0⟩ = some 1 ∧
    dotProductSpec 16 16 A_c1 B_c1 0 0 = some 0 := by
  have h1 : List.range (16 / 16) = [0] := rfl
  refine ⟨rfl, ?_, ?_⟩
  · simp only [threadVal, h1, List.foldl_cons, List.foldl_nil, tileAccum,
      range_sixteen, prodAt, aReadIdx, bReadIdx, A_c1, B_c1,
      List.get?_eq_getElem?, List.getElem?_map, List.getElem?_range]
    norm_num
  · simp only [dotProductSpec, range_sixteen, List.foldl_cons, List.foldl_nil,
      A_c1, B_c1, List.get?_eq_getElem?, List.getElem?_map, List.getElem?_range]
    norm_num

/-- The value of the thread owning output cell 0 in the configuration
BLOCK_SIZE = 16, wA = hB = 32, wB = hA = 16 with the constant fills: its
second-tile read of B is at flat index 512, outside B's 512-element extent,
so the accumulator is poisoned. -/
lemma threadVal_const_poisoned :
    threadVal 16 32 A_const B_const ⟨0, 0, 0, 0⟩ = none := by
  have h2 : List.range (32 / 16) = [0, 1] := rfl
  simp only [threadVal, h2, List.foldl_cons, List.foldl_nil, tileAccum,
    range_sixteen, prodAt, aReadIdx, bReadIdx, A_const, B_const, ConstantInit,
    List.get?_eq_getElem?, List.getElem?_replicate]
  norm_num

/-- Claim C2: with wA = hB = 32, hA = 16, wB = 16 (all multiples of the tile
edge 16) and the constant fills A ≡ 1.0, B ≡ 0.01, output element 0 is not
`wA * 0.01 = 0.32`: the thread computing it reads B out of bounds (the kernel
indexes B with stride wA), so the written value is undefined (`some none`). -/
theorem constant_fill_out_of_bounds :
    MatrixMulCUDA 16 32 A_const B_const (allThreads 16 16 16) 0 = some none := by
  have hfil : ((allThreads 16 16 16).filter fun t => cWriteIdx 16 32 t == 0) =
      [⟨0, 0, 0, 0⟩] := by decide
  simp [MatrixMulCUDA, hfil, threadVal_const_poisoned]

/-- Claim C5: in the launch configuration BLOCK_SIZE = 16, wA = hB = 32,
wB = 16, hA = 16 (satisfying wA = hB and divisibility), thread (0,0,0,0) of
the grid reads B at flat index `(1*16 + 0)*wA + 0 = 512`, which is not below
B's extent `wB * hB = 512`: the read is out of bounds and poisons the
thread's accumulator. -/
theorem b_read_out_of_bounds :
    (⟨0, 0, 0, 0⟩ : Thread) ∈ allThreads 16 16 16 ∧
    bReadIdx 16 32 ⟨0, 0, 0, 0⟩ 1 0 = 512 ∧
    B_const.length = 16 * 32 ∧
    B_const.get? (bReadIdx 16 32 ⟨0, 0, 0, 0⟩ 1 0) = none ∧
    threadVal 16 32 A_const B_const ⟨0, 0, 0, 0⟩ = none := by
  refine ⟨by decide, rfl, by simp [B_const, ConstantInit], ?_,
    threadVal_const_poisoned⟩
  have hidx : bReadIdx 16 32 ⟨0, 0, 0, 0⟩ 1 0 = 512 := rfl
  rw [hidx, List.get?_eq_getElem?, B_const, ConstantInit, List.getElem?_replicate]
  norm_num

/-- The first writer of C cell 256 in the race configuration accumulates 0. -/
lemma threadVal_race_first : threadVal 16 16 A_race B_race ⟨0, 1, 0, 0⟩ = some 0 := by
  have h1 : List.range (16 / 16) = [0] := rfl
  simp only [threadVal, h1, List.foldl_cons, List.foldl_nil, tileAccum,
    range_sixteen, prodAt, aReadIdx, bReadIdx, A_race, B_race,
    List.get?_eq_getElem?, List.getElem?_map, List.getElem?_range]
  norm_num

/-- The second writer of C cell 256 in the race configuration accumulates 1. -/
lemma threadVal_race_second : threadVal 16 16 A_race B_race ⟨1, 0, 0, 15⟩ = some 1 := by
  have h1 : List.range (16 / 16) = [0] := rfl
  simp only [threadVal, h1, List.foldl_cons, List.foldl_nil, tileAccum,
    range_sixteen, prodAt, aReadIdx, bReadIdx, A_race, B_race,
    List.get?_eq_getElem?, List.getElem?_map, List.getElem?_range]
  norm_num

/-- The third writer of C cell 256 in the race configuration accumulates 1. -/
lemma threadVal_race_third : threadVal 16 16 A_race B_race ⟨2, 0, 0, 14⟩ = some 1 := by
  have h1 : List.range (16 / 16) = [0] := rfl
  simp only [threadVal, h1, List.foldl_cons, List.foldl_nil, tileAccum,
    range_sixteen, prodAt, aReadIdx, bReadIdx, A_race, B_race,
    List.get?_eq_getElem?, List.getElem?_map, List.getElem?_range]
  norm_num

/-- Claim C10: with BLOCK_SIZE = 16, wA = hB = 16, wB = 48, hA = 32 and fixed
inputs `A_race`, `B_race`, the C cell at flat index 256 is written by three
threads that hold different values (the write index `row*wA + col` uses
stride wA < wB, so distinct output positions collide): executing the grid in
block-ascending order leaves 1 there, executing it in the reverse order
leaves 0 — two runs on identical inputs with identical dimensions and tile
size can differ. -/
theorem write_race_two_schedules :
    MatrixMulCUDA 16 16 A_race B_race (allThreads 16 48 32) 256 = some (some 1) ∧
    MatrixMulCUDA 16 16 A_race B_race (allThreads 16 48 32).reverse 256 =
      some (some 0) := by
  have hf1 : ((allThreads 16 48 32).filter fun t => cWriteIdx 16 16 t == 256) =
      [⟨0, 1, 0, 0⟩, ⟨1, 0, 0, 15⟩, ⟨2, 0, 0, 14⟩] := by decide
  have hf2 : ((allThreads 16 48 32).reverse.filter fun t =>
      cWriteIdx 16 16 t == 256) =
      [⟨2, 0, 0, 14⟩, ⟨1, 0, 0, 15⟩, ⟨0, 1, 0, 0⟩] := by decide
  constructor
  · simp [MatrixMulCUDA, hf1, threadVal_race_first, threadVal_race_second,
      threadVal_race_third, List.getLast?]
  · simp [MatrixMulCUDA, hf2, threadVal_race_first, threadVal_race_second,
      threadVal_race_third, List.getLast?]

/-- The `correct` flag after folding the validation step over any suffix:
it is the conjunction of the incoming flag with "no element of the suffix is
flagged".  The loop never stops early. -/
lemma valFold_snd (wAq : ℚ) (l : List (ℕ × ℚ)) :
    ∀ st : List (ℕ × ℚ × ℚ) × Bool,
      (l.foldl (valStep wAq) st).2 = (st.2 && l.all fun p => !failsTol wAq p.2) := by
  induction l with
  | nil => intro st; simp
  | cons p l ih =>
      intro st
      rw [List.foldl_cons, List.all_cons, ih]
      by_cases h : failsTol wAq p.2 <;> simp [valStep, h, Bool.and_assoc]

/-- The report list after folding the validation step over any suffix: the
incoming reports followed by one report `(index, value, reference)` for every
flagged element of the suffix, in order. -/
lemma valFold_fst (wAq : ℚ) (l : List (ℕ × ℚ)) :
    ∀ st : List (ℕ × ℚ × ℚ) × Bool,
      (l.foldl (valStep wAq) st).1 =
        st.1 ++ (l.filter fun p => failsTol wAq p.2).map fun p => (p.1, p.2, wAq * valB) := by
  induction l with
  | nil => intro st; simp
  | cons p l ih =>
      intro st
      rw [List.foldl_cons, List.filter_cons]
      by_cases h : failsTol wAq p.2
      · rw [if_pos (by simpa using h), ih]
        simp [valStep, h]
      · rw [if_neg (by simpa using h), ih]
        simp [valStep, h]

/-- Claim C3: the driver flags validation failure exactly when some element
of `h_C` has `|C[i] - wA*0.01| / |C[i]| / wA > 1e-6`; `MatrixMultiply`
returns success (0) exactly when no element is flagged; and on the
dimension-matched path the process exit code is 0 on a passed check and 1 on
a failed one. -/
theorem mm_validation_exit (wAq : ℚ) (hC : List ℚ) (wA hB : ℕ) (h : wA = hB) :
    ((validate wAq hC).2 = false ↔
      ∃ p ∈ hC.enum, eps < rel_err p.2 (wAq * valB) wAq) ∧
    (MatrixMultiply_result wAq hC = 0 ↔ (validate wAq hC).2 = true) ∧
    mainExitCode wA hB wAq hC = (if (validate wAq hC).2 then 0 else 1) := by
  have hflag : (validate wAq hC).2 = (hC.enum.all fun p => !failsTol wAq p.2) := by
    simpa [validate] using valFold_snd wAq hC.enum ([], true)
  refine ⟨?_, ?_, ?_⟩
  · rw [hflag]
    constructor
    · intro hfalse
      by_contra hnone
      push_neg at hnone
      have : (hC.enum.all fun p => !failsTol wAq p.2) = true := by
        rw [List.all_eq_true]
        intro p hp
        simp [failsTol, hnone p hp]
      rw [this] at hfalse
      simp at hfalse
    · rintro ⟨p, hp, herr⟩
      by_contra htrue
      have : (hC.enum.all fun p => !failsTol wAq p.2) = true := by
        cases hb : (hC.enum.all fun p => !failsTol wAq p.2)
        · exact absurd hb htrue
        · rfl
      rw [List.all_eq_true] at this
      have := this p hp
      simp [failsTol, herr] at this
  · unfold MatrixMultiply_result
    by_cases hb : (validate wAq hC).2 <;> simp [hb]
  · simp [mainExitCode, h, MatrixMultiply_result]

/-- Witness for `mm_validation_exit` at wA = hB = 320 with the single-element
readback [3.2]. -/
theorem mm_validation_exit_witness :
    (320 : ℕ) = 320 ∧
    mainExitCode 320 320 (320 : ℚ) [(16 : ℚ) / 5] =
      (if (validate (320 : ℚ) [(16 : ℚ) / 5]).2 then 0 else 1) :=
  ⟨rfl, (mm_validation_exit (320 : ℚ) [(16 : ℚ) / 5] 320 320 rfl).2.2⟩

/-- Claim C9: validation is exhaustive and individually reporting: the report
list contains exactly one entry `(index, computed value, reference)` for
every out-of-tolerance element, in index order (no short-circuit); the
`correct` flag is true exactly when no element is out of tolerance; and on
the normal path `MatrixMultiply` returns its success/failure code as the very
last event, after the whole validation loop. -/
theorem validation_exhaustive (wAq : ℚ) (hC : List ℚ) :
    (validate wAq hC).1 =
      ((hC.enum.filter fun p => failsTol wAq p.2).map fun p => (p.1, p.2, wAq * valB)) ∧
    ((validate wAq hC).2 = true ↔
      ∀ p ∈ hC.enum, ¬ eps < rel_err p.2 (wAq * valB) wAq) ∧
    ∀ bs okA okB, (mmTrace bs okA okB true wAq hC).getLast? =
      some (Event.ret (MatrixMultiply_result wAq hC)) := by
  refine ⟨?_, ?_, ?_⟩
  · simpa [validate] using valFold_fst wAq hC.enum ([], true)
  · have hflag : (validate wAq hC).2 = (hC.enum.all fun p => !failsTol wAq p.2) := by
      simpa [validate] using valFold_snd wAq hC.enum ([], true)
    rw [hflag, List.all_eq_true]
    constructor
    · intro hall p hp
      simpa [failsTol] using hall p hp
    · intro hnone p hp
      simp [failsTol, hnone p hp]
  · intro bs okA okB
    simp only [mmTrace]
    rw [if_true, ← List.append_assoc, List.getLast?_append_cons]
    rfl

/-- Claim C4: whenever the configured width of A differs from the configured
height of B, `main` prints the mismatch error and exits with failure status
immediately: the whole trace is the banner, the error print and
`exit(EXIT_FAILURE)` — no host or device allocation and no kernel launch ever
happens. -/
theorem main_rejects_mismatch (wA hA wB hB bs : ℕ) (okA okB okC : Bool)
    (wAq : ℚ) (hC : List ℚ) (h : wA ≠ hB) :
    mainTrace wA hA wB hB bs okA okB okC wAq hC =
      [.startPrint, .mismatchPrint, .exitE 1] ∧
    (∀ b ok, Event.hostAlloc b ok ∉ mainTrace wA hA wB hB bs okA okB okC wAq hC) ∧
    (∀ b, Event.devAlloc b ∉ mainTrace wA hA wB hB bs okA okB okC wAq hC) ∧
    (∀ n, Event.kernelLaunch n ∉ mainTrace wA hA wB hB bs okA okB okC wAq hC) := by
  have ht : mainTrace wA hA wB hB bs okA okB okC wAq hC =
      [.startPrint, .mismatchPrint, .exitE 1] := by
    simp only [mainTrace]
    rw [if_pos h]
    rfl
  refine ⟨ht, fun b ok => ?_, fun b => ?_, fun n => ?_⟩ <;> rw [ht] <;> simp

/-- Witness for `main_rejects_mismatch` at wA = 320, hB = 64. -/
theorem main_rejects_mismatch_witness :
    (320 : ℕ) ≠ 64 ∧
    mainTrace 320 320 64 64 32 true true true (320 : ℚ) [] =
      [.startPrint, .mismatchPrint, .exitE 1] :=
  ⟨by decide,
   (main_rejects_mismatch 320 320 64 64 32 true true true 320 [] (by decide)).1⟩

/-- Claim C6 (amended): the driver performs no tile-size validation and never
terminates on an unsupported size; it launches the `BLOCK_SIZE = 16`
instantiation when `block_size == 16` and the `BLOCK_SIZE = 32` instantiation
for every other value, so every kernel launch event carries template size 16
or 32 — and `main` always passes `block_size = 32`. -/
theorem kernel_launch_supported (bs : ℕ) (okA okB : Bool) (wAq : ℚ)
    (hC : List ℚ) (n : ℕ)
    (h : Event.kernelLaunch n ∈ mmTrace bs okA okB true wAq hC) :
    (n = 16 ∨ n = 32) ∧ main_block_size = 32 := by
  refine ⟨?_, rfl⟩
  have hn : n = launchedBlockSize bs := by
    simp only [mmTrace] at h
    rw [if_true] at h
    simp [List.mem_append, List.mem_replicate, List.mem_cons, List.mem_map] at h
    exact h
  rw [hn, launchedBlockSize]
  by_cases hbs : bs = 16 <;> simp [hbs]

/-- Witness for `kernel_launch_supported` at `block_size = 8`. -/
theorem kernel_launch_supported_witness :
    Event.kernelLaunch 32 ∈ mmTrace 8 true true true (320 : ℚ) [] ∧
    ((32 = 16 ∨ 32 = 32) ∧ main_block_size = 32) :=
  ⟨by decide, kernel_launch_supported 8 true true 320 [] 32 (by decide)⟩

/-- Claim C6 (counterexample): called with the unsupported tile size 8, the
driver does not detect any configuration error: it launches device work (the
`BLOCK_SIZE = 32` instantiation) and never terminates the process. -/
theorem unsupported_size_launches :
    Event.kernelLaunch 32 ∈ mmTrace 8 true true true (320 : ℚ) [] ∧
    Event.exitE 1 ∉ mmTrace 8 true true true (320 : ℚ) [] := by
  decide

/-- Claim C7 (amended): only the allocation of host matrix C is checked: when
it fails, the failure is reported (`checkFail`) and the process exits with
`EXIT_FAILURE` immediately after the check, with no retry and no
continuation. -/
theorem alloc_check_only_C (bs : ℕ) (okA okB : Bool) (wAq : ℚ) (hC : List ℚ) :
    mmTrace bs okA okB false wAq hC =
      [.hostAlloc .A okA, .hostAlloc .B okB, .initHost .A, .initHost .B,
       .hostAlloc .C false, .checkFail, .exitE 1] := by
  simp [mmTrace]

/-- Claim C7 (counterexample): when the allocation of host matrix A fails,
nothing is detected: the program carries on — it initializes both host
buffers (writing through the failed pointer) and never reports or exits. -/
theorem allocA_failure_undetected :
    (mmTrace 32 false true true (320 : ℚ) []).take 5 =
      [.hostAlloc .A false, .hostAlloc .B true, .initHost .A, .initHost .B,
       .hostAlloc .C true] ∧
    Event.checkFail ∉ mmTrace 32 false true true (320 : ℚ) [] ∧
    Event.exitE 1 ∉ mmTrace 32 false true true (320 : ℚ) [] := by
  decide

/-- Claim C8 (amended): on the normal return path `MatrixMultiply` frees all
three host buffers and all three device buffers before returning. -/
theorem frees_on_normal_path (bs : ℕ) (okA okB : Bool) (wAq : ℚ) (hC : List ℚ) :
    ∀ b : Buf, Event.freeHost b ∈ mmTrace bs okA okB true wAq hC ∧
      Event.freeDev b ∈ mmTrace bs okA okB true wAq hC := by
  intro b
  cases b <;> constructor <;> simp [mmTrace]

/-- Claim C8 (counterexample): on the early-failure path (host C allocation
fails) the process exits although host A and B were successfully allocated
and nothing at all is freed. -/
theorem early_exit_frees_nothing :
    Event.hostAlloc .A true ∈ mmTrace 32 true true false (320 : ℚ) [] ∧
    Event.hostAlloc .B true ∈ mmTrace 32 true true false (320 : ℚ) [] ∧
    Event.freeHost .A ∉ mmTrace 32 true true false (320 : ℚ) [] ∧
    Event.freeHost .B ∉ mmTrace 32 true true false (320 : ℚ) [] ∧
    Event.freeDev .A ∉ mmTrace 32 true true false (320 : ℚ) [] := by
  decide
